import Mathlib

/-!
Verification of the FastTask sampling / reconciliation core.

Each definition below is a shallow embedding of a function of the
repository (settings.py, process_manager.py, monitoring.py, ui.py).
OS interaction (psutil) is modelled by explicit oracle structures whose
fields stand for the possible outcomes of the corresponding OS calls.
Machine floats are modelled as rationals; the code only compares and
averages them, so no floating-point rounding is involved in the claims.
-/

namespace FastTask

/-! ### settings.py -/

/-- settings.py: the critical-process allowlist. -/
def CRITICAL_PROCESSES : List String :=
  ["explorer.exe", "winlogon.exe", "services.exe", "csrss.exe",
   "svchost.exe", "lsass.exe", "System"]

/-- Python str.lower(): character-wise lowercasing (the names involved are
ASCII, where Char.toLower agrees with Python). -/
def strLower (s : String) : String := ⟨s.data.map Char.toLower⟩

/-! ### process_manager.py: ProcessInfo -/

/-- process_manager.py, class ProcessInfo: the record stored for one process. -/
structure ProcessInfo where
  pid : Nat
  name : String
  cpu_percent : ℚ
  memory_mb : ℚ
  status : String
  priority : Option Int
  threads : Option Nat
  command_line : Option String
  username : String
  memory_bytes : Nat
  memory_percent : ℚ
  created_time : ℚ
  num_threads : Nat
  exe_path : String
  is_critical : Bool
  is_suspicious : Bool
  deriving DecidableEq, Repr

/-- process_manager.py, ProcessInfo.__init__: `is_critical` is derived from the
name (case-insensitive membership in CRITICAL_PROCESSES) and `is_suspicious`
is initialised to False. -/
def ProcessInfo.init (pid : Nat) (name : String) (cpu_percent : ℚ) (memory_mb : ℚ)
    (status : String) (priority : Option Int) (threads : Option Nat)
    (command_line : Option String) (username : String) (memory_bytes : Nat)
    (memory_percent : ℚ) (created_time : ℚ) (num_threads : Nat)
    (exe_path : String) : ProcessInfo :=
  { pid := pid, name := name, cpu_percent := cpu_percent, memory_mb := memory_mb,
    status := status, priority := priority, threads := threads,
    command_line := command_line, username := username, memory_bytes := memory_bytes,
    memory_percent := memory_percent, created_time := created_time,
    num_threads := num_threads, exe_path := exe_path,
    is_critical := decide (strLower name ∈ CRITICAL_PROCESSES.map strLower),
    is_suspicious := false }

/-! ### process_manager.py: get_process_list

psutil is modelled by an oracle: `pids` is the outcome of `psutil.pids()`
(which may raise, caught by the outer handler), and `query pid` is the
combined outcome of the per-pid attribute fetches inside the loop body:
either all succeed (`ok`), or one raises a psutil error caught by the inner
`except (NoSuchProcess, AccessDenied, ZombieProcess)` handler (`skip`), or
one raises any other exception, which escapes to the outer
`except Exception` handler (`fatal`). -/

/-- The attributes the loop body reads for one pid, post inner error handling:
`priority` is already None when its own inner try caught an error, and
`exe_path` is already "" likewise. -/
structure PidInfo where
  name : String
  status : String
  username : String
  cpuPercent : ℚ
  memoryRss : Nat
  memoryPercent : ℚ
  createdTime : ℚ
  numThreads : Nat
  priority : Option Int
  exePath : String
  deriving Repr

/-- Outcome of the per-pid attribute fetches for one iteration. -/
inductive PidQuery
  | ok (info : PidInfo)
  | skip
  | fatal
  deriving Repr

/-- Oracle for the psutil calls made by get_process_list. -/
structure OsModel where
  pids : Except String (List Nat)
  query : Nat → PidQuery
  platformWin : Bool

/-- process_manager.py lines 124-137: the ProcessInfo built for one pid.
In non-detailed mode the expensive attributes are replaced by sentinels
(lines 112-121); memory_mb / memory_bytes are 0 when memory_info is None. -/
def buildProcInfo (detailed : Bool) (platformWin : Bool) (pid : Nat)
    (info : PidInfo) : ProcessInfo :=
  if detailed then
    ProcessInfo.init pid info.name info.cpuPercent
      ((info.memoryRss : ℚ) / (1024 * 1024)) info.status
      (if platformWin then info.priority else none) none none
      info.username info.memoryRss info.memoryPercent info.createdTime
      info.numThreads info.exePath
  else
    ProcessInfo.init pid info.name 0 0 info.status none none none
      "" 0 0 info.createdTime 0 ""

/-- process_manager.py lines 81-143: the enumeration loop. Returns the list
built so far together with a flag recording whether the outer
`except Exception` handler fired (a fatal error aborts the loop; the
partial list is still returned). `skip` iterations `continue`. -/
def collectProcs (os : OsModel) (detailed : Bool) : List Nat → List ProcessInfo × Bool
  | [] => ([], false)
  | pid :: rest =>
    match os.query pid with
    | .fatal => ([], true)
    | .skip => collectProcs os detailed rest
    | .ok info =>
      let tail := collectProcs os detailed rest
      (buildProcInfo detailed os.platformWin pid info :: tail.1, tail.2)

/-- process_manager.py lines 77-79: the limit is applied only when it is
not None and strictly positive. -/
def applyLimit (limit : Option Int) (pids : List Nat) : List Nat :=
  match limit with
  | none => pids
  | some l => if l > 0 then pids.take l.toNat else pids

/-- process_manager.py, get_process_list: enumerate pids, apply the limit,
run the loop. A failure of `psutil.pids()` itself is caught by the outer
handler, logged, and the empty list is returned. The Bool component records
whether the outer handler fired (the `print` log). -/
def get_process_list (os : OsModel) (detailed : Bool) (limit : Option Int) :
    List ProcessInfo × Bool :=
  match os.pids with
  | .error _ => ([], true)
  | .ok allPids => collectProcs os detailed (applyLimit limit allPids)

/-! ### process_manager.py: terminate_process

The psutil calls of terminate_process are modelled by an oracle and the
signals actually sent to the OS are recorded in an explicit trace, so that
"no signal was sent" is a provable statement. -/

/-- A signal sent to the OS layer. -/
inductive TermSignal
  | term (pid : Nat)
  | kill (pid : Nat)
  deriving DecidableEq, Repr

/-- psutil exceptions relevant to terminate_process. -/
inductive PsError
  | noSuchProcess
  | accessDenied
  | other (msg : String)
  deriving DecidableEq, Repr

/-- Oracle for the psutil calls of terminate_process: name resolution
(Process(pid) + name()), whether terminate() raises, whether the process is
gone within the 3s wait, whether kill() raises. -/
structure TermOs where
  procName : Nat → Except PsError String
  terminateRaises : Nat → Option PsError
  exitsWithinTimeout : Nat → Bool
  killRaises : Nat → Option PsError

/-- process_manager.py lines 181-186: the messages of the except handlers. -/
def termErrorMsg (pid : Nat) : PsError → String
  | .noSuchProcess => "Processo com PID " ++ toString pid ++ " não existe."
  | .accessDenied =>
      "Acesso negado ao tentar encerrar o processo. Execute como administrador."
  | .other msg => "Erro ao encerrar processo: " ++ msg

/-- process_manager.py, terminate_process: returns (success, message) and the
trace of signals sent to the OS. The critical-process check (lines 164-166)
happens after name resolution and before process.terminate(). -/
def terminate_process (os : TermOs) (pid : Nat) :
    (Bool × String) × List TermSignal :=
  match os.procName pid with
  | .error e => ((false, termErrorMsg pid e), [])
  | .ok process_name =>
    if strLower process_name ∈ CRITICAL_PROCESSES.map strLower then
      ((false, "Atenção: " ++ process_name ++ " é um processo crítico do sistema."), [])
    else
      match os.terminateRaises pid with
      | some e => ((false, termErrorMsg pid e), [.term pid])
      | none =>
        if os.exitsWithinTimeout pid then
          ((true, "Processo " ++ process_name ++ " (PID: " ++ toString pid ++
            ") foi encerrado com sucesso."), [.term pid])
        else
          match os.killRaises pid with
          | some e => ((false, termErrorMsg pid e), [.term pid, .kill pid])
          | none =>
            ((true, "Processo " ++ process_name ++ " (PID: " ++ toString pid ++
              ") foi forçadamente encerrado."), [.term pid, .kill pid])

/-! ### monitoring.py: bounded history (collections.deque with maxlen) -/

/-- The last `cap` elements of a list (everything when the list is short). -/
def takeLast (cap : Nat) (l : List α) : List α :=
  l.drop (l.length - cap)

/-- `collections.deque(maxlen := cap).append`: append at the right, evicting
from the left once the capacity is reached. -/
def dequePush (cap : Nat) (h : List α) (v : α) : List α :=
  takeLast cap (h ++ [v])

/-- monitoring.py, class SystemMonitor: machine-wide histories, deques of
maxlen history_length. -/
structure SystemMonitor where
  history_length : Nat
  cpu_history : List ℚ
  ram_history : List ℚ
  timestamps : List ℚ

/-- monitoring.py, SystemMonitor._collect_data_point: append one (timestamp,
cpu, ram) point to each deque. -/
def SystemMonitor.collect_data_point (m : SystemMonitor)
    (timestamp cpu_percent ram_percent : ℚ) : SystemMonitor :=
  { m with
    timestamps := dequePush m.history_length m.timestamps timestamp,
    cpu_history := dequePush m.history_length m.cpu_history cpu_percent,
    ram_history := dequePush m.history_length m.ram_history ram_percent }

/-- monitoring.py lines 89-112, SystemMonitor.get_average: the number of
points is min(len(cpu_history), minutes*60); when it is 0 the sentinel
(0.0, 0.0) is returned, otherwise the averages of the last `points` values
of each history. -/
def SystemMonitor.get_average (m : SystemMonitor) (minutes : Nat) : ℚ × ℚ :=
  let points := min m.cpu_history.length (minutes * 60)
  if points = 0 then (0, 0)
  else ((takeLast points m.cpu_history).sum / points,
        (takeLast points m.ram_history).sum / points)

/-- monitoring.py, class ProcessMonitor: per-process histories plus the
validity flag set by the constructor / collection. -/
structure ProcessMonitor where
  pid : Nat
  history_length : Nat
  valid : Bool
  cpu_history : List ℚ
  ram_history : List ℚ
  timestamps : List ℚ

/-- monitoring.py lines 221-235, ProcessMonitor.is_suspicious: False when
invalid or the history is empty, otherwise last cpu > cpu_threshold or
last ram > ram_threshold_mb. The Python defaults are 80.0 and 1000.0. -/
def ProcessMonitor.is_suspicious (m : ProcessMonitor)
    (cpu_threshold ram_threshold_mb : ℚ) : Bool :=
  if m.valid = false ∨ m.cpu_history = [] then false
  else decide (m.cpu_history.getLastD 0 > cpu_threshold) ||
       decide (m.ram_history.getLastD 0 > ram_threshold_mb)

/-- ProcessMonitor.is_suspicious with the Python default arguments
cpu_threshold = 80.0, ram_threshold_mb = 1000.0. -/
def ProcessMonitor.is_suspiciousDefault (m : ProcessMonitor) : Bool :=
  m.is_suspicious 80 1000

/-! ### ui.py: ProcessTableWidget.update_processes (selection carry-over)

update_processes saves the currently selected pid (lines 90-95), rebuilds
the table and the pid→row dict pid_row_map (lines 118-124), and restores
the selection iff the saved pid is a key of the new dict (lines 181-183).
A Python dict keeps the last assignment for a repeated key. -/

/-- ui.py lines 118-124: the pid→row dict built while filling the table;
the row of the last record with a given pid wins, as in a Python dict. -/
def pid_row_map (processes : List ProcessInfo) (pid : Nat) : Option Nat :=
  (processes.enum.filter (fun rp => rp.2.pid = pid)).getLast?.map (fun rp => rp.1)

/-- ui.py lines 90-95 and 181-183: the selection restored after a refresh —
the row selected again, or none when the saved pid is absent from the new
snapshot. The comparison uses only the pid. -/
def restore_selection (selected_pid : Option Nat)
    (processes : List ProcessInfo) : Option Nat :=
  match selected_pid with
  | none => none
  | some pid => pid_row_map processes pid

/-! ### ui.py: MainWindow._apply_filter (filter and sort)

The Python list.sort method is a stable sort; it is embedded as the stable
List.insertionSort on the corresponding key relation. `reverse=True` keeps
equal keys in original order, hence the flipped (≥ on keys) relation. -/

/-- Key relation of `processes.sort(key=lambda p: p.name.lower())`: Python
compares strings lexicographically by code point, the lexicographic order on
the character lists. -/
def nameLe (a b : ProcessInfo) : Prop :=
  (strLower a.name).data ≤ (strLower b.name).data

/-- Key relation of `processes.sort(key=lambda p: p.pid)`. -/
def pidLe (a b : ProcessInfo) : Prop := a.pid ≤ b.pid

/-- Key relation of `processes.sort(key=lambda p: p.cpu_percent, reverse=True)`. -/
def cpuGe (a b : ProcessInfo) : Prop := b.cpu_percent ≤ a.cpu_percent

/-- Key relation of `processes.sort(key=lambda p: p.memory_mb, reverse=True)`. -/
def ramGe (a b : ProcessInfo) : Prop := b.memory_mb ≤ a.memory_mb

instance : DecidableRel nameLe := fun a b => by unfold nameLe; infer_instance
instance : DecidableRel pidLe := fun a b => by unfold pidLe; infer_instance
instance : DecidableRel cpuGe := fun a b => by unfold cpuGe; infer_instance
instance : DecidableRel ramGe := fun a b => by unfold ramGe; infer_instance

instance : IsTotal ProcessInfo nameLe :=
  ⟨fun a b => le_total (strLower a.name).data (strLower b.name).data⟩
instance : IsTrans ProcessInfo nameLe := ⟨fun _ _ _ h h' => le_trans h h'⟩
instance : IsTotal ProcessInfo pidLe := ⟨fun a b => Nat.le_total a.pid b.pid⟩
instance : IsTrans ProcessInfo pidLe := ⟨fun _ _ _ h h' => Nat.le_trans h h'⟩
instance : IsTotal ProcessInfo cpuGe := ⟨fun a b => le_total b.cpu_percent a.cpu_percent⟩
instance : IsTrans ProcessInfo cpuGe := ⟨fun _ _ _ h h' => le_trans h' h⟩
instance : IsTotal ProcessInfo ramGe := ⟨fun a b => le_total b.memory_mb a.memory_mb⟩
instance : IsTrans ProcessInfo ramGe := ⟨fun _ _ _ h h' => le_trans h' h⟩

/-- ui.py lines 836-864, MainWindow._apply_filter: case-insensitive substring
filter on the name when the search text is non-empty, then a stable sort
chosen by the sort key ("nome" ascending case-insensitive, "pid" ascending,
"cpu" and "ram" descending); any other key leaves the order unchanged. -/
def apply_filter (search_text sort_by : String)
    (processes : List ProcessInfo) : List ProcessInfo :=
  let searched := strLower search_text
  let processes :=
    if search_text ≠ "" then
      processes.filter (fun p => decide (searched.toList <:+: (strLower p.name).toList))
    else processes
  if sort_by = "nome" then processes.insertionSort nameLe
  else if sort_by = "pid" then processes.insertionSort pidLe
  else if sort_by = "cpu" then processes.insertionSort cpuGe
  else if sort_by = "ram" then processes.insertionSort ramGe
  else processes

/-! ### ui.py: MainWindow.update_data (tick coalescing)

update_data (lines 796-834) drops any invocation made while is_updating is
set, sets the flag, does the sampling work and clears the flag in a finally
block. The temporal behaviour is embedded as a step relation over abstract
events: `tick` is an invocation of update_data and `finish` is the finally
block of the invocation currently in flight. The counters record how many
samples were started, completed, and how many ticks were dropped. -/

/-- Scheduler state: the is_updating flag of MainWindow together with event
counters (not present in the source; they only observe the behaviour). -/
structure SchedState where
  is_updating : Bool
  started : Nat
  completed : Nat
  dropped : Nat
  deriving DecidableEq, Repr

/-- Events: a (possibly reentrant) invocation of update_data, and the
completion of the in-flight sample (the finally block). -/
inductive SchedEvent
  | tick
  | finish
  deriving DecidableEq, Repr

/-- One step of the update_data state machine: a tick while is_updating
returns immediately (dropped, nothing queued); otherwise it sets the flag
and starts a sample. finish clears the flag. -/
def sched_step (s : SchedState) : SchedEvent → SchedState
  | .tick =>
    if s.is_updating then { s with dropped := s.dropped + 1 }
    else { s with is_updating := true, started := s.started + 1 }
  | .finish =>
    if s.is_updating then { s with is_updating := false, completed := s.completed + 1 }
    else s

/-- Initial state: is_updating = False (MainWindow.__init__, line 595). -/
def sched_init : SchedState :=
  { is_updating := false, started := 0, completed := 0, dropped := 0 }

/-- Run the state machine on a sequence of events. -/
def sched_run (events : List SchedEvent) : SchedState :=
  events.foldl sched_step sched_init

/-- Number of samples in flight in a state. -/
def SchedState.inFlight (s : SchedState) : Nat :=
  s.started - s.completed

/-! ### Concrete oracles and records used by witnesses and counterexamples -/

/-- A ProcessInfo record with the given pid, name, cpu, memory and creation
time, built through the ProcessInfo constructor. -/
def sampleRec (pid : Nat) (name : String) (cpu mem created : ℚ) : ProcessInfo :=
  ProcessInfo.init pid name cpu mem "running" none none none "" 0 0 created 0 ""

/-- Attributes returned for a healthy pid by the sample oracle. -/
def infoA : PidInfo :=
  { name := "app.exe", status := "running", username := "u", cpuPercent := 5,
    memoryRss := 1048576, memoryPercent := 1, createdTime := 100,
    numThreads := 2, priority := some 0, exePath := "" }

/-- Sample oracle: pids 1 and 3 are healthy, querying pid 2 hits a fatal
(non-psutil) error that escapes to the outer handler. -/
def osPartial : OsModel :=
  { pids := .ok [1, 2, 3],
    query := fun pid => if pid = 2 then .fatal else .ok infoA,
    platformWin := false }

/-- Lifecycle oracle whose name resolution always returns the critical
process name "System". -/
def osCriticalTerm : TermOs :=
  { procName := fun _ => .ok "System",
    terminateRaises := fun _ => none,
    exitsWithinTimeout := fun _ => true,
    killRaises := fun _ => none }

/-- The previously selected record: pid 100, created at T0 = 0. -/
def prevRec : ProcessInfo := sampleRec 100 "app.exe" 0 0 0

/-- A record of the next snapshot that reuses pid 100 with a different
creation time T1 = 1. -/
def reusedRec : ProcessInfo := sampleRec 100 "app.exe" 0 0 1

/-- Records with cpu_percent 10, 90, 50 (spec example for cpu sorting). -/
def cpuExample : List ProcessInfo :=
  [sampleRec 1 "a" 10 0 0, sampleRec 2 "b" 90 0 0, sampleRec 3 "c" 50 0 0]

/-- Records named "zeta", "Alpha", "beta" (spec example for name sorting). -/
def nameExample : List ProcessInfo :=
  [sampleRec 1 "zeta" 0 0 0, sampleRec 2 "Alpha" 0 0 0, sampleRec 3 "beta" 0 0 0]

/-- A SystemMonitor with cold (empty) history. -/
def monEmpty : SystemMonitor := ⟨60, [], [], []⟩

/-- A SystemMonitor with two stored points. -/
def monTwo : SystemMonitor := ⟨60, [10, 20], [30, 50], [0, 1]⟩

/-- A valid ProcessMonitor whose latest reading is cpu 90, ram 10. -/
def monProc : ProcessMonitor := ⟨7, 60, true, [90], [10], [0]⟩

/-! ## Theorems -/

/-- C4: for all thresholds and every monitor with an available latest
reading (valid and non-empty history), is_suspicious equals the strict
disjunction (last cpu > T_cpu or last ram > T_ram) over the current values
only, and the default thresholds are 80 (% CPU) and 1000 (MB RAM). -/
theorem C4_is_suspicious_eq_threshold_disjunction :
    (∀ (m : ProcessMonitor) (Tcpu Tram : ℚ), m.valid = true → m.cpu_history ≠ [] →
      m.is_suspicious Tcpu Tram =
        (decide (m.cpu_history.getLastD 0 > Tcpu) ||
         decide (m.ram_history.getLastD 0 > Tram))) ∧
    (∀ m : ProcessMonitor, m.is_suspiciousDefault = m.is_suspicious 80 1000) := by
  refine ⟨fun m Tcpu Tram hv hne => ?_, fun m => rfl⟩
  simp [ProcessMonitor.is_suspicious, hv, hne]

/-- Witness for C4 at a concrete monitor. -/
theorem C4_witness :
    monProc.is_suspicious 80 1000 =
      (decide (monProc.cpu_history.getLastD 0 > 80) ||
       decide (monProc.ram_history.getLastD 0 > 1000)) :=
  C4_is_suspicious_eq_threshold_disjunction.1 monProc 80 1000 rfl (by decide)

/-- buildProcInfo always yields a record whose is_suspicious field is False,
since the ProcessInfo constructor initialises it to False. -/
theorem buildProcInfo_not_suspicious (detailed platformWin : Bool) (pid : Nat)
    (info : PidInfo) : (buildProcInfo detailed platformWin pid info).is_suspicious = false := by
  cases detailed <;> rfl

/-- Every record produced by the enumeration loop has is_suspicious = False. -/
theorem collectProcs_not_suspicious (os : OsModel) (detailed : Bool) :
    ∀ (pids : List Nat) (p : ProcessInfo),
      p ∈ (collectProcs os detailed pids).1 → p.is_suspicious = false := by
  intro pids
  induction pids with
  | nil => intro p hp; simp [collectProcs] at hp
  | cons pid rest ih =>
    intro p hp
    unfold collectProcs at hp
    cases hq : os.query pid with
    | fatal => rw [hq] at hp; simp at hp
    | skip => rw [hq] at hp; exact ih p hp
    | ok info =>
      rw [hq] at hp
      simp only [List.mem_cons] at hp
      rcases hp with rfl | hp
      · exact buildProcInfo_not_suspicious _ _ _ _
      · exact ih p hp

/-- C10: every record returned by the process-list snapshot has
is_suspicious = False, for every oracle, mode and limit: the snapshot source
never applies the suspicious classification. -/
theorem C10_snapshot_records_never_suspicious (os : OsModel) (detailed : Bool)
    (limit : Option Int) (p : ProcessInfo)
    (hp : p ∈ (get_process_list os detailed limit).1) : p.is_suspicious = false := by
  unfold get_process_list at hp
  cases hpids : os.pids with
  | error e => rw [hpids] at hp; simp at hp
  | ok allPids => rw [hpids] at hp; exact collectProcs_not_suspicious os detailed _ p hp

/-- Witness for C10 at the sample oracle. -/
theorem C10_witness : (buildProcInfo false false 1 infoA).is_suspicious = false :=
  C10_snapshot_records_never_suspicious osPartial false none _ (by decide)

/-- C9: a limit of zero or a negative integer is ignored (the snapshot
equals the unlimited one), and a strictly positive limit truncates the
enumerated PID list to its first `limit` entries before processing. -/
theorem C9_limit_ignored_unless_positive :
    (∀ (os : OsModel) (detailed : Bool) (l : Int), l ≤ 0 →
      get_process_list os detailed (some l) = get_process_list os detailed none) ∧
    (∀ (os : OsModel) (detailed : Bool) (l : Int) (ps : List Nat), 0 < l →
      os.pids = .ok ps →
      get_process_list os detailed (some l) = collectProcs os detailed (ps.take l.toNat)) := by
  constructor
  · intro os detailed l hl
    unfold get_process_list
    cases hpids : os.pids with
    | error e => rfl
    | ok allPids =>
      simp only [applyLimit]
      rw [if_neg (by omega)]
  · intro os detailed l ps hl hpids
    unfold get_process_list
    rw [hpids]
    simp only [applyLimit]
    rw [if_pos hl]

/-- Witness for C9 at the sample oracle with limits -5 and 2. -/
theorem C9_witness :
    get_process_list osPartial false (some (-5)) = get_process_list osPartial false none ∧
    get_process_list osPartial false (some 2) =
      collectProcs osPartial false ([1, 2, 3].take (Int.toNat 2)) :=
  ⟨C9_limit_ignored_unless_positive.1 osPartial false (-5) (by decide),
   C9_limit_ignored_unless_positive.2 osPartial false 2 [1, 2, 3] (by decide) rfl⟩

/-- C3: whenever the resolved name of a pid is on the critical-process
allowlist (case-insensitively), terminate_process returns success = false
with the protected-process message, and the trace of signals sent to the OS
is empty — the guard runs before any termination attempt. -/
theorem C3_critical_guard_blocks_termination (os : TermOs) (pid : Nat)
    (name : String) (hname : os.procName pid = .ok name)
    (hcrit : strLower name ∈ CRITICAL_PROCESSES.map strLower) :
    terminate_process os pid =
      ((false, "Atenção: " ++ name ++ " é um processo crítico do sistema."), []) := by
  unfold terminate_process
  rw [hname]
  simp [hcrit]

/-- Witness for C3: terminating a pid that resolves to "System". -/
theorem C3_witness :
    terminate_process osCriticalTerm 4 =
      ((false, "Atenção: " ++ "System" ++ " é um processo crítico do sistema."), []) :=
  C3_critical_guard_blocks_termination osCriticalTerm 4 "System" rfl (by decide)

/-- The inductive invariant of the update_data state machine: the
is_updating flag accounts exactly for the gap between started and completed
samples. -/
theorem sched_invariant (events : List SchedEvent) :
    ∀ s : SchedState, s.completed + (if s.is_updating then 1 else 0) = s.started →
      (events.foldl sched_step s).completed +
        (if (events.foldl sched_step s).is_updating then 1 else 0) =
        (events.foldl sched_step s).started := by
  induction events with
  | nil => intro s hs; exact hs
  | cons e rest ih =>
    intro s hs
    simp only [List.foldl_cons]
    apply ih
    cases e with
    | tick =>
      cases h : s.is_updating <;> simp [sched_step, h] at hs ⊢ <;> omega
    | finish =>
      cases h : s.is_updating <;> simp [sched_step, h] at hs ⊢ <;> omega

/-- C6: in every run of the update_data state machine, at most one sample is
in flight at any time (exactly one iff is_updating is set), and a tick that
arrives while a sample is in flight is dropped — it only bumps the dropped
counter, starting nothing and queuing nothing. -/
theorem C6_reentrant_tick_dropped_single_flight :
    (∀ events : List SchedEvent,
        (sched_run events).inFlight = (if (sched_run events).is_updating then 1 else 0) ∧
        (sched_run events).inFlight ≤ 1) ∧
    (∀ s : SchedState, s.is_updating = true →
        sched_step s .tick = { s with dropped := s.dropped + 1 }) := by
  constructor
  · intro events
    have h := sched_invariant events sched_init rfl
    unfold sched_run SchedState.inFlight
    cases hu : (List.foldl sched_step sched_init events).is_updating <;>
      simp [hu] at h ⊢ <;> omega
  · intro s hs
    simp [sched_step, hs]

/-- Witness for C6: a run with a reentrant tick, and the dropped-tick step at
a concrete in-flight state. -/
theorem C6_witness :
    (sched_run [SchedEvent.tick, SchedEvent.tick, SchedEvent.finish]).inFlight ≤ 1 ∧
    sched_step { is_updating := true, started := 1, completed := 0, dropped := 0 } .tick =
      { is_updating := true, started := 1, completed := 0, dropped := 0 + 1 } :=
  ⟨(C6_reentrant_tick_dropped_single_flight.1
      [SchedEvent.tick, SchedEvent.tick, SchedEvent.finish]).2,
   C6_reentrant_tick_dropped_single_flight.2
      { is_updating := true, started := 1, completed := 0, dropped := 0 } rfl⟩

/-- C2 counterexample: at a concrete oracle where the OS query subsystem
fails globally while enumerating (pid 2 raises a non-psutil error), the
snapshot operation does NOT propagate the error: the outer handler fires
(flag true, the error only logged) and a non-empty partial result is
returned to the caller — contradicting "propagates the error and returns no
partial result". -/
theorem C2_counterexample :
    (get_process_list osPartial false none).2 = true ∧
    (get_process_list osPartial false none).1 ≠ [] := by decide

/-- C2 amended: per-process failures are skipped with enumeration
continuing; a global failure of the OS query subsystem is caught inside the
snapshot operation (and logged), which then returns normally the partial
list accumulated before the failure — empty when PID enumeration itself
failed. No error is ever propagated to the caller. -/
theorem C2_amended_global_failure_caught_and_logged :
    (∀ (os : OsModel) (detailed : Bool) (pid : Nat) (rest : List Nat),
        os.query pid = .skip →
        collectProcs os detailed (pid :: rest) = collectProcs os detailed rest) ∧
    (∀ (os : OsModel) (detailed : Bool) (ps : List Nat) (pid : Nat) (rest : List Nat),
        os.query pid = .fatal → (collectProcs os detailed ps).2 = false →
        collectProcs os detailed (ps ++ pid :: rest) =
          ((collectProcs os detailed ps).1, true)) ∧
    (∀ (os : OsModel) (detailed : Bool) (limit : Option Int) (e : String),
        os.pids = .error e → get_process_list os detailed limit = ([], true)) := by
  refine ⟨fun os detailed pid rest h => by simp [collectProcs, h], ?_, ?_⟩
  · intro os detailed ps pid rest hfatal
    induction ps with
    | nil => intro _; simp [collectProcs, hfatal]
    | cons q qs ih =>
      intro hok
      cases hq : os.query q with
      | fatal => simp [collectProcs, hq] at hok
      | skip =>
        simp only [collectProcs, hq] at hok
        simp only [List.cons_append, collectProcs, hq]
        exact ih hok
      | ok info =>
        simp only [collectProcs, hq] at hok
        simp only [List.cons_append, collectProcs, hq, List.append_eq]
        rw [ih hok]
  · intro os detailed limit e h
    simp [get_process_list, h]

/-- Witness for C2 amended at the sample oracle: skipping, aborting with a
partial result, and enumeration failure. -/
theorem C2_witness :
    collectProcs osPartial false ([1] ++ 2 :: [3]) =
      ((collectProcs osPartial false [1]).1, true) :=
  C2_amended_global_failure_caught_and_logged.2.1 osPartial false [1] 2 [3] rfl rfl

/-- C1 counterexample: the previous selection held pid 100 created at T0 = 0;
the current snapshot reuses pid 100 with creation time T1 = 1 ≠ T0, yet the
selection is re-bound to that row (row 0) instead of being cleared — the
restore logic compares only the pid, never creation_time. -/
theorem C1_counterexample :
    reusedRec.created_time ≠ prevRec.created_time ∧
    restore_selection (some 100) [reusedRec] = some 0 := by decide

/-- C1 amended: after a refresh, the selection is re-bound whenever the
current snapshot contains a record with the previously selected pid — the
row of the last such record — regardless of creation_time; it is cleared
only when no current record carries that pid. -/
theorem C1_amended_reselect_by_pid_only (pid : Nat) (processes : List ProcessInfo) :
    (restore_selection (some pid) processes).isSome =
      processes.any (fun p => decide (p.pid = pid)) := by
  simp only [restore_selection, pid_row_map, Option.isSome_map']
  unfold List.enum
  generalize 0 = n
  induction processes generalizing n with
  | nil => rfl
  | cons p t ih =>
    by_cases hp : p.pid = pid
    · have hd : decide (p.pid = pid) = true := by simp [hp]
      simp only [List.enumFrom, List.filter_cons, if_pos hd, List.any_cons, hd,
        Bool.true_or]
      simp
    · have hd : decide (p.pid = pid) = false := by simp [hp]
      simp only [List.enumFrom, List.filter_cons, hd, Bool.false_eq_true, if_false,
        List.any_cons, Bool.false_or]
      exact ih (n + 1)

/-- takeLast is the identity on lists within the capacity. -/
theorem takeLast_of_le {α : Type} {cap : Nat} {l : List α} (h : l.length ≤ cap) :
    takeLast cap l = l := by
  unfold takeLast
  rw [Nat.sub_eq_zero_of_le h, List.drop_zero]

/-- Length of takeLast. -/
theorem takeLast_length {α : Type} (cap : Nat) (l : List α) :
    (takeLast cap l).length = min l.length cap := by
  simp only [takeLast, List.length_drop]
  omega

/-- Taking the last cap elements twice around an append collapses. -/
theorem takeLast_append_takeLast {α : Type} (cap : Nat) (xs ys : List α) :
    takeLast cap (takeLast cap xs ++ ys) = takeLast cap (xs ++ ys) := by
  rcases Nat.le_total xs.length cap with h | h
  · rw [takeLast_of_le h]
  · have h1 : takeLast cap xs ++ ys = (xs ++ ys).drop (xs.length - cap) := by
      unfold takeLast
      rw [List.drop_append_of_le_length (Nat.sub_le _ _)]
    rw [h1]
    unfold takeLast
    rw [List.drop_drop]
    simp only [List.length_drop, List.length_append]
    congr 1
    omega

/-- Folding dequePush from a state within capacity keeps the last cap
elements of everything ever pushed. -/
theorem foldl_dequePush {α : Type} (cap : Nat) (vs : List α) :
    ∀ h : List α, h.length ≤ cap →
      vs.foldl (dequePush cap) h = takeLast cap (h ++ vs) := by
  induction vs with
  | nil => intro h hh; simp [takeLast_of_le hh]
  | cons v t ih =>
    intro h hh
    have hlen : (dequePush cap h v).length ≤ cap := by
      unfold dequePush
      rw [takeLast_length]
      omega
    simp only [List.foldl_cons]
    rw [ih (dequePush cap h v) hlen]
    show takeLast cap (takeLast cap (h ++ [v]) ++ t) = takeLast cap (h ++ v :: t)
    rw [takeLast_append_takeLast]
    congr 1
    simp

/-- C5: the deque never exceeds its capacity, and pushing N+1 values into an
empty capacity-N series yields exactly the last N pushed values: length N,
the very first pushed value evicted, the oldest retained entry being the 2nd
pushed value — pure FIFO, insertion order = chronological order. -/
theorem C5_fifo_eviction_capacity :
    (∀ (α : Type) (cap : Nat) (h : List α) (v : α), h.length ≤ cap →
        (dequePush cap h v).length ≤ cap) ∧
    (∀ (α : Type) (cap : Nat) (vs : List α), vs.length = cap + 1 →
        vs.foldl (dequePush cap) [] = vs.drop 1 ∧
        (vs.foldl (dequePush cap) []).length = cap ∧
        (vs.foldl (dequePush cap) []).head? = vs[1]?) := by
  constructor
  · intro α cap h v hh
    unfold dequePush
    rw [takeLast_length]
    omega
  · intro α cap vs hvs
    have hfold : vs.foldl (dequePush cap) [] = vs.drop 1 := by
      rw [foldl_dequePush cap vs [] (by simp)]
      unfold takeLast
      simp only [List.nil_append]
      congr 1
      omega
    refine ⟨hfold, ?_, ?_⟩
    · rw [hfold, List.length_drop]; omega
    · rw [hfold, List.head?_drop]

/-- Witness for C5: capacity 2, pushing the three values 7, 8, 9. -/
theorem C5_witness :
    (dequePush 2 [(7 : ℚ), 8] 9).length ≤ 2 ∧
    [(7 : ℚ), 8, 9].foldl (dequePush 2) [] = [(7 : ℚ), 8, 9].drop 1 :=
  ⟨C5_fifo_eviction_capacity.1 ℚ 2 [7, 8] 9 (by decide),
   (C5_fifo_eviction_capacity.2 ℚ 2 [7, 8, 9] rfl).1⟩

/-- C7: on an empty series get_average returns the sentinel (0.0, 0.0) for
both metrics without raising; on a non-empty series (with histories of equal
length, as the monitor maintains) the average is taken over all stored
points when fewer than the window minutes*60 are stored, and over the last
minutes*60 points otherwise. -/
theorem C7_average_empty_sentinel_window :
    (∀ (m : SystemMonitor) (minutes : Nat), m.cpu_history = [] →
        m.get_average minutes = (0, 0)) ∧
    (∀ (m : SystemMonitor) (minutes : Nat), m.cpu_history ≠ [] → 1 ≤ minutes →
        m.ram_history.length = m.cpu_history.length →
        (m.cpu_history.length ≤ minutes * 60 →
          m.get_average minutes =
            (m.cpu_history.sum / m.cpu_history.length,
             m.ram_history.sum / m.ram_history.length)) ∧
        (minutes * 60 ≤ m.cpu_history.length →
          m.get_average minutes =
            ((takeLast (minutes * 60) m.cpu_history).sum / ((minutes * 60 : Nat) : ℚ),
             (takeLast (minutes * 60) m.ram_history).sum / ((minutes * 60 : Nat) : ℚ)))) := by
  constructor
  · intro m minutes hempty
    simp [SystemMonitor.get_average, hempty]
  · intro m minutes hne hmin hlen
    have hpos : 0 < m.cpu_history.length := List.length_pos.mpr hne
    constructor
    · intro hle
      have hpts : min m.cpu_history.length (minutes * 60) = m.cpu_history.length :=
        Nat.min_eq_left hle
      unfold SystemMonitor.get_average
      rw [hpts, if_neg (by omega)]
      rw [takeLast_of_le (le_refl _), takeLast_of_le (le_of_eq hlen), hlen]
    · intro hge
      have hpts : min m.cpu_history.length (minutes * 60) = minutes * 60 :=
        Nat.min_eq_right hge
      unfold SystemMonitor.get_average
      rw [hpts, if_neg (by omega)]

/-- Witness for C7: the cold monitor and the two-point monitor. -/
theorem C7_witness :
    monEmpty.get_average 1 = (0, 0) ∧
    monTwo.get_average 1 =
      (monTwo.cpu_history.sum / monTwo.cpu_history.length,
       monTwo.ram_history.sum / monTwo.ram_history.length) :=
  ⟨C7_average_empty_sentinel_window.1 monEmpty 1 rfl,
   (C7_average_empty_sentinel_window.2 monTwo 1 (by decide) (by decide) rfl).1 (by decide)⟩

/-- C8: with an empty search text, sorting by "nome" yields a list ordered
ascending by case-insensitive name, by "pid" ascending by pid, by "cpu" and
"ram" descending by cpu_percent / memory_mb respectively, each a permutation
of the input; on the spec examples, cpu values [10, 90, 50] come out
[90, 50, 10] and names ["zeta", "Alpha", "beta"] come out
["Alpha", "beta", "zeta"]. -/
theorem C8_sort_orders_and_examples :
    (∀ l : List ProcessInfo,
        List.Sorted nameLe (apply_filter "" "nome" l) ∧ (apply_filter "" "nome" l).Perm l) ∧
    (∀ l : List ProcessInfo,
        List.Sorted pidLe (apply_filter "" "pid" l) ∧ (apply_filter "" "pid" l).Perm l) ∧
    (∀ l : List ProcessInfo,
        List.Sorted cpuGe (apply_filter "" "cpu" l) ∧ (apply_filter "" "cpu" l).Perm l) ∧
    (∀ l : List ProcessInfo,
        List.Sorted ramGe (apply_filter "" "ram" l) ∧ (apply_filter "" "ram" l).Perm l) ∧
    (apply_filter "" "cpu" cpuExample).map (fun p => p.cpu_percent) = [90, 50, 10] ∧
    (apply_filter "" "nome" nameExample).map (fun p => p.name) =
      ["Alpha", "beta", "zeta"] := by
  have hnome : ∀ l : List ProcessInfo, apply_filter "" "nome" l = l.insertionSort nameLe :=
    fun l => rfl
  have hpid : ∀ l : List ProcessInfo, apply_filter "" "pid" l = l.insertionSort pidLe :=
    fun l => rfl
  have hcpu : ∀ l : List ProcessInfo, apply_filter "" "cpu" l = l.insertionSort cpuGe :=
    fun l => rfl
  have hram : ∀ l : List ProcessInfo, apply_filter "" "ram" l = l.insertionSort ramGe :=
    fun l => rfl
  refine ⟨fun l => ?_, fun l => ?_, fun l => ?_, fun l => ?_, ?_, ?_⟩
  · rw [hnome]; exact ⟨List.sorted_insertionSort nameLe l, List.perm_insertionSort nameLe l⟩
  · rw [hpid]; exact ⟨List.sorted_insertionSort pidLe l, List.perm_insertionSort pidLe l⟩
  · rw [hcpu]; exact ⟨List.sorted_insertionSort cpuGe l, List.perm_insertionSort cpuGe l⟩
  · rw [hram]; exact ⟨List.sorted_insertionSort ramGe l, List.perm_insertionSort ramGe l⟩
  · decide
  · decide

end FastTask
